import Mathlib

/-!
Verification of the MoTeC LD/LDX ingestion and normalization pipeline
(`src/data_acquisition/parsers.py`, `src/data_acquisition/normalizer.py`,
`src/core/standard_data.py`).

The Python code is shallowly embedded here: numpy float64 arithmetic is
idealized as exact rational arithmetic (`ℚ`); Python `int()` truncation
toward zero is `pyInt`; Python dicts keyed by strings are association
lists with replace-on-insert; file reads are modelled by passing the
decoded byte content (raw sample lists, descriptor records, sidecar
records) explicitly.
-/

/-- Python `int()` applied to a rational: truncation toward zero. -/
def pyInt (q : ℚ) : Int := if 0 ≤ q then ⌊q⌋ else ⌈q⌉

/-- Replace-on-insert for an association list: the semantics of a Python
dict assignment `d[k] = v` (later assignment overwrites, order kept). -/
def insertReplace (d : List (String × List ℚ)) (k : String) (v : List ℚ) :
    List (String × List ℚ) :=
  match d with
  | [] => [(k, v)]
  | (k', v') :: rest =>
      if k' = k then (k, v) :: rest else (k', v') :: insertReplace rest k v

/-- Python slice `l[a:b]`. -/
def sliceL (l : List ℚ) (a b : Nat) : List ℚ := (l.drop a).take (b - a)

/-! ## Sample decoder (`_ldChan`, parsers.py lines 52-162) -/

/-- A channel descriptor after `_ldChan._read_header`: the conversion
parameters (shift, multiplier, scale, decimal exponent as unpacked from
the 216-byte record), whether the type codes mapped to a known numpy
dtype (`valid`), and the raw sample array found at its data pointer. -/
structure LdChan where
  shift : Int
  mul : Int
  scale : Int
  dec : Int
  valid : Bool
  data : List ℚ
deriving Repr, DecidableEq

/-- End of `_ldChan._read_header` (parsers.py lines 113-121): a recorded
scale of 0 is replaced by 1 and a recorded multiplier of 0 is replaced
by 1 before the descriptor is used (division-by-zero guard). -/
def ldChanOfHeader (shift mul scale dec : Int) (valid : Bool) (data : List ℚ) :
    LdChan :=
  { shift := shift
    mul := if mul = 0 then 1 else mul
    scale := if scale = 0 then 1 else scale
    dec := dec
    valid := valid
    data := data }

/-- The conversion at parsers.py line 157:
`(raw / scale * 10.0 ** (-dec) + shift) * mul`. -/
def convertSample (c : LdChan) (r : ℚ) : ℚ :=
  (r / (c.scale : ℚ) * (10 : ℚ) ^ (-c.dec) + (c.shift : ℚ)) * (c.mul : ℚ)

/-- `_ldChan.get_data(start_index, count)` (parsers.py lines 133-162):
fails when the dtype is unknown, the channel is empty, the count is zero
or the requested range exceeds the sample count; otherwise reads the
requested slice of raw samples and converts every element. -/
def get_data (c : LdChan) (start cnt : Nat) : Option (List ℚ) :=
  if c.valid = false ∨ c.data.length = 0 then none
  else if cnt = 0 ∨ c.data.length < start + cnt then none
  else some ((sliceL c.data start (start + cnt)).map (convertSample c))

/-- `get_data()` with the default arguments: the entire sample array
(`count = data_len - start_index` with `start_index = 0`). -/
def get_data_full (c : LdChan) : Option (List ℚ) := get_data c 0 c.data.length

/-! ## Channel directory walker (`MotecParser.parse`, parsers.py lines 393-440) -/

/-- One channel-descriptor record as the walker sees it at a byte offset:
whether its name is non-empty and its type codes are recognized
(`valid`), its decoded name, and its `next_meta_ptr`. -/
structure ChanRec where
  valid : Bool
  name : String
  next : Nat
deriving Repr, DecidableEq

/-- The walker's memory: reading a descriptor record at a byte offset
either succeeds or raises (modelled by `none`). -/
def ChanMem : Type := Nat → Option ChanRec

/-- The `while meta_ptr != 0 and meta_ptr not in processed_offsets` loop
of `MotecParser.parse` (parsers.py lines 417-435): the offset is added
to the visited set before the record is read; an unreadable or invalid
record stops the walk; after a successful record the hard cap of 1000
visited offsets is checked before following the `next` pointer. -/
def walkFrom (mem : ChanMem) (ptr : Nat) (visited : List Nat)
    (chans : List String) : List String × List Nat :=
  if ptr = 0 ∨ ptr ∈ visited then (chans, visited)
  else
    match mem ptr with
    | none => (chans, ptr :: visited)
    | some r =>
        if r.valid then
          if 1000 < (ptr :: visited).length then (chans ++ [r.name], ptr :: visited)
          else walkFrom mem r.next (ptr :: visited) (chans ++ [r.name])
        else (chans, ptr :: visited)
termination_by 1001 - visited.length
decreasing_by
  simp only [List.length_cons] at *
  omega

/-- The full directory walk (parsers.py lines 399-435): the first record
is read at the anchor offset and is fatal if unreadable or invalid;
on success the chain is followed from its `next` pointer with the anchor
already visited. -/
def walkChannels (mem : ChanMem) (anchor : Nat) :
    Option (List String × List Nat) :=
  match mem anchor with
  | none => none
  | some r => if r.valid then some (walkFrom mem r.next [anchor] [r.name]) else none

/-- The two-record cycle of the claim: a record A at offset 100 whose
`next` points to B at offset 200, whose `next` points back to A. -/
def cycleMem : ChanMem := fun p =>
  if p = 100 then some ⟨true, "A", 200⟩
  else if p = 200 then some ⟨true, "B", 100⟩
  else none

/-! ## Lap index reader (`_ldxLapInfo`, `_parse_ldx`, parsers.py lines 262-316) -/

/-- One accepted sidecar lap record (`_ldxLapInfo`): lap number, start
sample index, end sample index (inclusive), lap time in seconds. -/
structure LdxLapInfo where
  lap_num : Nat
  start_off : Nat
  end_off : Nat
  time : ℚ
deriving Repr, DecidableEq

/-- The record loop of `_parse_ldx` (parsers.py lines 288-302): a record
`(start, end, time)` is skipped when `start ≥ end` or `time ≤ 0`, and
the lap counter is not incremented for a skipped record. -/
def ldxRecords (recs : List (Nat × Nat × ℚ)) (lapNum : Nat) : List LdxLapInfo :=
  match recs with
  | [] => []
  | (s, e, t) :: rest =>
      if s < e ∧ 0 < t then ⟨lapNum, s, e, t⟩ :: ldxRecords rest (lapNum + 1)
      else ldxRecords rest lapNum

/-- `_parse_ldx` (parsers.py lines 277-316): a missing or unreadable
sidecar is `none` in, `none` out; a readable sidecar whose records are
all rejected also yields `none` rather than an error. -/
def parse_ldx (content : Option (List (Nat × Nat × ℚ))) :
    Option (List LdxLapInfo) :=
  match content with
  | none => none
  | some recs =>
      let l := ldxRecords recs 1
      if l.isEmpty then none else some l

/-! ## Standardized data model (`src/core/standard_data.py`) -/

/-- `DataPoint` of standard_data.py: one telemetry sample. Fields that
the Python dataclass types as `int` hold `Int` here, `float` fields hold
`ℚ`, and the optional tyre fields hold `Option ℚ` (default `None`). -/
structure DataPoint where
  timestamp_ms : Int := 0
  distance_m : ℚ := 0
  lap_time_ms : Int := 0
  sector : Int := 0
  pos_x : ℚ := 0
  pos_y : ℚ := 0
  pos_z : ℚ := 0
  speed_kmh : ℚ := 0
  rpm : Int := 0
  gear : Int := 0
  steer_angle : ℚ := 0
  throttle : ℚ := 0
  brake : ℚ := 0
  clutch : ℚ := 0
  tyre_temp_fl : Option ℚ := none
  tyre_temp_fr : Option ℚ := none
  tyre_temp_rl : Option ℚ := none
  tyre_temp_rr : Option ℚ := none
  tyre_press_fl : Option ℚ := none
  tyre_press_fr : Option ℚ := none
  tyre_press_rl : Option ℚ := none
  tyre_press_rr : Option ℚ := none
deriving Repr, DecidableEq

/-- `LapData` of standard_data.py. -/
structure LapData where
  lap_number : Int
  lap_time_ms : Int
  sector_times_ms : List Int := []
  is_valid : Bool := true
  data_points : List DataPoint := []
deriving Repr, DecidableEq

/-- `TrackData` of standard_data.py. -/
structure TrackData where
  name : String
  length_meters : Option ℚ := none
  sector_markers_m : List ℚ := []
deriving Repr, DecidableEq

/-- `SessionInfo` of standard_data.py (weather omitted: never set by the
code under verification). -/
structure SessionInfo where
  game : String
  track : String
  car : String
  date : String
  source : String
  driver_name : Option String := none
  session_type : Option String := none
deriving Repr, DecidableEq

/-- `TelemetrySession` of standard_data.py. -/
structure TelemetrySession where
  session_info : SessionInfo
  track_data : TrackData
  laps : List LapData := []
deriving Repr, DecidableEq

/-! ## Normalizer (`TelemetryNormalizer`, normalizer.py) -/

/-- The `channel_mapping` dict of `_normalize_motec` (normalizer.py
lines 54-121), in insertion order. -/
def channelMapping : List (String × String) :=
  [("Lap", "lap_number"), ("Lap Count", "lap_number"), ("Laps", "lap_number"),
   ("Time", "timestamp_s"), ("Timestamp", "timestamp_s"),
   ("Distance", "distance_m"), ("Lap Distance", "distance_m"),
   ("Track Distance", "distance_m"),
   ("Sector", "sector"), ("Sector Index", "sector"),
   ("Speed", "speed_kmh"), ("Ground Speed", "speed_kmh"), ("GPS Speed", "speed_kmh"),
   ("RPM", "rpm"), ("Engine RPM", "rpm"), ("Gear", "gear"),
   ("Throttle", "throttle"), ("Throttle Pos", "throttle"),
   ("Brake", "brake"), ("Brake Pos", "brake"), ("Brake Pressure", "brake"),
   ("Steering", "steer_angle"), ("Steer Angle", "steer_angle"),
   ("Clutch", "clutch"),
   ("Pos X", "pos_x"), ("Pos Y", "pos_y"), ("Pos Z", "pos_z"),
   ("GPS Pos X", "pos_x"), ("GPS Pos Y", "pos_y"), ("GPS Pos Z", "pos_z"),
   ("X Pos", "pos_x"), ("Y Pos", "pos_y"), ("Z Pos", "pos_z"),
   ("Lat Accel", "lat_g"), ("Long Accel", "long_g"), ("Vert Accel", "vert_g"),
   ("G Force Lat", "lat_g"), ("G Force Long", "long_g"), ("G Force Vert", "vert_g"),
   ("Susp Pos FL", "susp_pos_fl"), ("Susp Pos FR", "susp_pos_fr"),
   ("Susp Pos RL", "susp_pos_rl"), ("Susp Pos RR", "susp_pos_rr"),
   ("Tyre Temp FL", "tyre_temp_fl"), ("Tyre Temp FR", "tyre_temp_fr"),
   ("Tyre Temp RL", "tyre_temp_rl"), ("Tyre Temp RR", "tyre_temp_rr"),
   ("Tyre Press FL", "tyre_press_fl"), ("Tyre Press FR", "tyre_press_fr"),
   ("Tyre Press RL", "tyre_press_rl"), ("Tyre Press RR", "tyre_press_rr")]

/-- `_find_channel_mapping` (normalizer.py lines 332-344): exact key
lookup first, then the first entry whose key matches case-insensitively. -/
def findChannelMapping (name : String) : Option String :=
  match channelMapping.lookup name with
  | some std => some std
  | none => (channelMapping.find? (fun p => p.1.toLower = name.toLower)).map (·.2)

/-- The mapped-channel dict built at normalizer.py lines 124-128: each
sample entry whose name maps to a standard name is stored under the
standard name (later entries overwrite, dict semantics). -/
def mappedChannels (samples : List (String × List ℚ)) : List (String × List ℚ) :=
  samples.foldl
    (fun d p =>
      match findChannelMapping p.1 with
      | some std => insertReplace d std p.2
      | none => d) []

/-- `required_channels` of `_normalize_motec` (normalizer.py line 131). -/
def requiredChannels : List String := ["lap_number", "timestamp_s", "distance_m"]

/-- The lap-boundary transition points of `_process_laps_from_samples`
(normalizer.py line 193): `np.where(np.diff(lap_numbers) > 0)[0] + 1`,
the indices whose counter value strictly increased over the previous
sample. -/
def lapChanges (xs : List ℚ) : List Nat :=
  ((List.range (xs.length - 1)).filter
    (fun j => decide (xs.getD j 0 < xs.getD (j + 1) 0))).map (· + 1)

/-- `start_indices = np.insert(lap_changes, 0, 0)` (normalizer.py line 194). -/
def startIndices (xs : List ℚ) : List Nat := 0 :: lapChanges xs

/-- `end_indices = np.append(lap_changes, num_samples)` (normalizer.py
line 195); the ends are exclusive. -/
def endIndices (xs : List ℚ) (numSamples : Nat) : List Nat :=
  lapChanges xs ++ [numSamples]

/-- The sector transition points of `_calculate_sector_times`
(normalizer.py line 307): `np.where(np.diff(sectors) != 0)[0] + 1`. -/
def sectorChanges (xs : List ℚ) : List Nat :=
  ((List.range (xs.length - 1)).filter
    (fun j => decide (xs.getD j 0 ≠ xs.getD (j + 1) 0))).map (· + 1)

/-- The body of the segment loop of `_calculate_sector_times`
(normalizer.py lines 311-325), acting on the accumulated
(sector times, track sector markers): an empty segment is skipped; a
segment whose sector number is positive appends its timestamp span and,
only when the marker list is still shorter than the sector number,
appends the distance at the segment's first sample to the markers. -/
def sectorStep (sectors timestamps distances : List ℚ)
    (acc : List Int × List ℚ) (se : Nat × Nat) : List Int × List ℚ :=
  if se.2 ≤ se.1 then acc
  else if 0 < pyInt (sectors.getD se.1 0) then
    (acc.1 ++ [pyInt ((timestamps.getD (se.2 - 1) 0 - timestamps.getD se.1 0) * 1000)],
     if (acc.2.length : Int) < pyInt (sectors.getD se.1 0) then
       acc.2 ++ [distances.getD se.1 0]
     else acc.2)
  else acc

/-- `_calculate_sector_times` (normalizer.py lines 301-330): segments
the lap's sector channel at its transition points and folds
`sectorStep` over the (start, end) pairs, threading the mutable
`track_data.sector_markers_m` list. -/
def calcSectorTimes (sectors timestamps distances : List ℚ)
    (markers : List ℚ) : List Int × List ℚ :=
  ((0 :: sectorChanges sectors).zip (sectorChanges sectors ++ [sectors.length])).foldl
    (sectorStep sectors timestamps distances) ([], markers)

/-- Reading channel `name` at index `i` when the channel is present:
`none` when the channel is absent (the `else`-default of
`_create_data_point` is used), `some` of the value (`l[i]`) otherwise. -/
def chanAtO (channels : List (String × List ℚ)) (name : String) (i : Nat) :
    Option ℚ :=
  (channels.lookup name).map (fun l => l.getD i 0)

/-- A present channel whose array is too short for index `i`: the Python
IndexError inside `_create_data_point` that turns the whole DataPoint
into `None`. -/
def chanBad (channels : List (String × List ℚ)) (name : String) (i : Nat) :
    Bool :=
  (channels.lookup name).isSome &&
    decide (((channels.lookup name).getD []).length ≤ i)

/-- The channel names `_create_data_point` reads unguarded (one per
non-tyre DataPoint field). -/
def dpChannelNames : List String :=
  ["timestamp_s", "distance_m", "sector", "pos_x", "pos_y", "pos_z",
   "speed_kmh", "rpm", "gear", "throttle", "brake", "steer_angle", "clutch"]

/-- Conversion `int(q * 1000)` applied when the channel value is there,
0 otherwise (the `else 0` default of `_create_data_point`). -/
def msOf (v : Option ℚ) : Int :=
  match v with
  | some q => pyInt (q * 1000)
  | none => 0

/-- Conversion `int((q - lap_start_time) * 1000)` applied when the
timestamp value is there, 0 otherwise. -/
def lapMsOf (v : Option ℚ) (lapStart : ℚ) : Int :=
  match v with
  | some q => pyInt ((q - lapStart) * 1000)
  | none => 0

/-- Conversion `int(q)` applied when the channel value is there,
0 otherwise. -/
def intOf (v : Option ℚ) : Int :=
  match v with
  | some q => pyInt q
  | none => 0

/-- Reading a tyre channel at index `i` as the `extra_fields` loop does
(normalizer.py lines 287-289): the field is set only when the channel
is present and the index is in range (guarded, no exception). -/
def tyreCell (channels : List (String × List ℚ)) (name : String) (i : Nat) :
    Option ℚ :=
  (channels.lookup name).bind (fun l => l.get? i)

/-- `_create_data_point` (normalizer.py lines 247-299): every field is
taken from its channel at `index` when the channel is present and
defaulted otherwise; `int`-typed fields truncate; an out-of-range index
on a present channel raises, yielding `none` (the skipped DataPoint).
The `extra_fields` that are not `DataPoint` attributes (`lat_g` etc.)
are filtered out by the `allowed_keys` step and are not modelled. -/
def createDataPoint (channels : List (String × List ℚ)) (i : Nat)
    (lapStart : ℚ) : Option DataPoint :=
  if dpChannelNames.any (fun n => chanBad channels n i) then none
  else
    some
      { timestamp_ms := msOf (chanAtO channels "timestamp_s" i)
        distance_m := (chanAtO channels "distance_m" i).getD 0
        lap_time_ms := lapMsOf (chanAtO channels "timestamp_s" i) lapStart
        sector := intOf (chanAtO channels "sector" i)
        pos_x := (chanAtO channels "pos_x" i).getD 0
        pos_y := (chanAtO channels "pos_y" i).getD 0
        pos_z := (chanAtO channels "pos_z" i).getD 0
        speed_kmh := (chanAtO channels "speed_kmh" i).getD 0
        rpm := intOf (chanAtO channels "rpm" i)
        gear := intOf (chanAtO channels "gear" i)
        steer_angle := (chanAtO channels "steer_angle" i).getD 0
        throttle := (chanAtO channels "throttle" i).getD 0
        brake := (chanAtO channels "brake" i).getD 0
        clutch := (chanAtO channels "clutch" i).getD 0
        tyre_temp_fl := tyreCell channels "tyre_temp_fl" i
        tyre_temp_fr := tyreCell channels "tyre_temp_fr" i
        tyre_temp_rl := tyreCell channels "tyre_temp_rl" i
        tyre_temp_rr := tyreCell channels "tyre_temp_rr" i
        tyre_press_fl := tyreCell channels "tyre_press_fl" i
        tyre_press_fr := tyreCell channels "tyre_press_fr" i
        tyre_press_rl := tyreCell channels "tyre_press_rl" i
        tyre_press_rr := tyreCell channels "tyre_press_rr" i }

/-- The body of the per-lap loop of `_process_laps_from_samples`
(normalizer.py lines 199-240) on the accumulated (laps, markers): an
empty range or a non-positive lap counter value is skipped; otherwise
the lap time is the timestamp span, sector times and markers are
computed from the lap's slice when a sector channel is mapped, the
lap's DataPoints are created index by index (a failed DataPoint is
skipped), and a lap with no DataPoints is dropped. -/
def lapStep (channels : List (String × List ℚ))
    (lapNums timestamps distances : List ℚ)
    (acc : List LapData × List ℚ) (se : Nat × Nat) : List LapData × List ℚ :=
  if se.2 ≤ se.1 then acc
  else
    let currentLap := pyInt (lapNums.getD se.1 0)
    if currentLap ≤ 0 then acc
    else
      let lapStart := timestamps.getD se.1 0
      let lapTime := pyInt ((timestamps.getD (se.2 - 1) 0 - lapStart) * 1000)
      let stm :=
        if (channels.lookup "sector").isSome then
          calcSectorTimes (sliceL ((channels.lookup "sector").getD []) se.1 se.2)
            (sliceL timestamps se.1 se.2) (sliceL distances se.1 se.2) acc.2
        else ([], acc.2)
      let pts := (List.range' se.1 (se.2 - se.1)).filterMap
        (fun j => createDataPoint channels j lapStart)
      if pts.isEmpty then (acc.1, stm.2)
      else
        (acc.1 ++ [{ lap_number := currentLap, lap_time_ms := lapTime,
                     sector_times_ms := stm.1, is_valid := true,
                     data_points := pts }], stm.2)

/-- `_process_laps_from_samples` (normalizer.py lines 182-245): lap
boundaries come from the strict increases of the `lap_number` channel
(start 0 prepended, `num_samples = len(timestamps)` appended as final
exclusive end) and `lapStep` is folded over the (start, end) pairs,
threading the track sector-marker list. -/
def processLaps (channels : List (String × List ℚ)) (markers : List ℚ) :
    List LapData × List ℚ :=
  let lapNums := (channels.lookup "lap_number").getD []
  let timestamps := (channels.lookup "timestamp_s").getD []
  let distances := (channels.lookup "distance_m").getD []
  ((startIndices lapNums).zip (endIndices lapNums timestamps.length)).foldl
    (lapStep channels lapNums timestamps distances) ([], markers)

/-- The failure modes of `TelemetryNormalizer.normalize`: each
constructor is one of the distinct logged-and-return-None paths. -/
inductive NormError where
  | emptySamples
  | missingChannels (missing : List String)
  | noValidLaps
  | badFormat
  | notImplemented
  | unknownFormat
deriving Repr, DecidableEq

/-- The dict branch of `_normalize_motec` (normalizer.py lines 44-180):
empty samples fail; channels are mapped; a non-empty list of missing
required channels fails with the missing-channels error; otherwise laps
are processed, an empty lap list fails, and the session is assembled
(the track sector markers are the ones accumulated during lap
processing, and the track length is set from the last DataPoint of the
last lap when its distance is positive). The `datetime.now()` fallback
of the date header is modelled as the empty string. -/
def normalizeMotecDict (header : List (String × String))
    (samples : List (String × List ℚ)) : Except NormError TelemetrySession :=
  if samples.isEmpty then .error .emptySamples
  else
    let mapped := mappedChannels samples
    let missing := requiredChannels.filter (fun ch => (mapped.lookup ch).isNone)
    if missing.isEmpty = false then .error (.missingChannels missing)
    else
      let si : SessionInfo :=
        { game := (header.lookup "game").getD "MoTeC Data"
          track := (header.lookup "venue").getD "Pista Desconhecida"
          car := (header.lookup "vehicle").getD "Carro Desconhecido"
          date := (header.lookup "datetime").getD ""
          source := "import:motec"
          driver_name := some ((header.lookup "driver").getD "Piloto Desconhecido")
          session_type := some ((header.lookup "session").getD "Sessão") }
      let pl := processLaps (mappedChannels samples) []
      if pl.1.isEmpty then .error .noValidLaps
      else
        let track1 : TrackData :=
          { name := si.track, length_meters := none, sector_markers_m := pl.2 }
        let lastD := (pl.1.getLast?.bind
          (fun lap => lap.data_points.getLast?)).map DataPoint.distance_m
        let track2 :=
          if 0 < lastD.getD 0 then { track1 with length_meters := lastD }
          else track1
        .ok { session_info := si, track_data := track2, laps := pl.1 }

/-- The runtime type of `raw_data` as `normalize` receives it: an
already-standardized session, a MoTeC header+samples dict, a list of
DataPoints (CSV path), or anything else. -/
inductive RawData where
  | session (s : TelemetrySession)
  | motecDict (header : List (String × String)) (samples : List (String × List ℚ))
  | csvPoints (pts : List DataPoint)
  | other
deriving Repr

/-- `_normalize_motec` (normalizer.py lines 31-180): a value that is
already a `TelemetrySession` is returned unchanged; a dict goes through
the mapping pipeline; anything else is an error. -/
def normalizeMotecRaw : RawData → Except NormError TelemetrySession
  | .session s => .ok s
  | .motecDict h smp => normalizeMotecDict h smp
  | _ => .error .badFormat

/-- `_normalize_csv` (normalizer.py lines 360-397): a value that is
already a `TelemetrySession` is returned unchanged; a list of
DataPoints becomes a single lap 1 with lap time 0; anything else is an
error. (The `dict`-with-"laps" branch, which rebuilds a session from
keyword arguments, is not reachable from the modelled inputs.) -/
def normalizeCsvRaw : RawData → Except NormError TelemetrySession
  | .session s => .ok s
  | .csvPoints pts =>
      .ok { session_info :=
              { game := "CSV Import", track := "Desconhecida",
                car := "Desconhecido", date := "N/A", source := "import:csv",
                driver_name := some "Desconhecido",
                session_type := some "Importado" }
            track_data := { name := "Desconhecida" }
            laps := [{ lap_number := 1, lap_time_ms := 0, data_points := pts }] }
  | _ => .error .badFormat

/-- `TelemetryNormalizer.normalize` (normalizer.py lines 17-29):
dispatch on the source format. -/
def TelemetryNormalizer.normalize (raw : RawData) (fmt : String) :
    Except NormError TelemetrySession :=
  if fmt = "motec" then normalizeMotecRaw raw
  else if fmt = "ibt" then .error .notImplemented
  else if fmt = "csv" then normalizeCsvRaw raw
  else .error .unknownFormat

/-! ## MoTeC parse-time lap assembly (`MotecParser.parse`, parsers.py lines 442-649) -/

/-- `MotecParser.CHANNEL_MAP` (parsers.py lines 323-360): MoTeC channel
names to standardized names, used with plain `dict.get` (no
case-insensitive fallback) at parse time. -/
def parserChannelMap : List (String × String) :=
  [("Time", "timestamp_s"), ("Distance", "distance_m"),
   ("Ground Speed", "speed_kmh"), ("RPM", "rpm"), ("Gear", "gear"),
   ("Throttle Pos", "throttle"), ("Brake Pos", "brake"),
   ("Steered Angle", "steer_angle"), ("Clutch Pos", "clutch"),
   ("GPS Latitude", "gps_lat"), ("GPS Longitude", "gps_lon"),
   ("Pos X", "pos_x"), ("Pos Y", "pos_y"), ("Pos Z", "pos_z"),
   ("LAP_BEACON", "lap_beacon"), ("ROTY", "rot_y"),
   ("STEERANGLE", "steer_angle"), ("SPEED", "speed_kmh"),
   ("THROTTLE", "throttle"), ("BRAKE", "brake"), ("GEAR", "gear"),
   ("CLUTCH", "clutch"), ("RPMS", "rpm"),
   ("BRAKE_TEMP_LF", "brake_temp_lf"), ("BRAKE_TEMP_RF", "brake_temp_rf"),
   ("BRAKE_TEMP_LR", "brake_temp_lr"), ("BRAKE_TEMP_RR", "brake_temp_rr"),
   ("WHEEL_SPEED_LF", "wheel_speed_lf"), ("WHEEL_SPEED_RF", "wheel_speed_rf"),
   ("WHEEL_SPEED_LR", "wheel_speed_lr"), ("WHEEL_SPEED_RR", "wheel_speed_rr"),
   ("BUMPSTOP_FORCE_LF", "bumpstop_force_lf"),
   ("BUMPSTOP_FORCE_RF", "bumpstop_force_rf"),
   ("BUMPSTOP_FORCE_LR", "bumpstop_force_lr"),
   ("BUMPSTOP_FORCE_RR", "bumpstop_force_rr")]

/-- `self.CHANNEL_MAP.get(chan_name, chan_name)` (parsers.py lines 484,
566): the standardized name, or the original name when unmapped. -/
def parseStdName (name : String) : String :=
  (parserChannelMap.lookup name).getD name

/-- The per-lap channel dict (`lap_data_dict`, parsers.py lines 476-486):
each walked channel's decoded sub-range, keyed by its standardized name,
kept only when decoding succeeded and produced data. -/
def lapDictFor (channels : List (String × LdChan)) (start cnt : Nat) :
    List (String × List ℚ) :=
  channels.foldl
    (fun d p =>
      if ((get_data p.2 start cnt).getD []).isEmpty then d
      else insertReplace d (parseStdName p.1) ((get_data p.2 start cnt).getD []))
    []

/-- The whole-session channel dict of the no-sidecar branch
(parsers.py lines 558-568): every walked channel's full decoded array,
keyed by its standardized name. -/
def fullLapDict (channels : List (String × LdChan)) : List (String × List ℚ) :=
  channels.foldl
    (fun d p =>
      if ((get_data_full p.2).getD []).isEmpty then d
      else insertReplace d (parseStdName p.1) ((get_data_full p.2).getD []))
    []

/-- `min_samples_in_lap` (parsers.py lines 477-486): the running minimum
of the decoded array lengths, `none` for the initial `float('inf')` on
an empty dict. The minimum is taken over the dict's entries; in the
Python loop a channel later overwritten by a duplicate standardized
name also feeds the running minimum, a case no mapped channel set of
the claims produces. -/
def minSamples (d : List (String × List ℚ)) : Option Nat :=
  d.foldl
    (fun m p =>
      if m.isSome then some (min (m.getD 0) p.2.length) else some p.2.length)
    none

/-- The per-sample zip of `MotecParser.parse` (parsers.py lines 506-507
and 588-589): for each index `i` below the minimum length, the
`point_data` dict `{key: values[i] for key, values in lap_data_dict.items()
if len(values) >= num_samples}` with `num_samples` the minimum length.
Samples of longer channels at indices at or beyond the minimum length
are never visited. -/
def parseLapPoints (d : List (String × List ℚ)) : List (List (String × ℚ)) :=
  match minSamples d with
  | none => []
  | some n =>
      (List.range n).map
        (fun i =>
          (d.filter (fun p => decide (n ≤ p.2.length))).map
            (fun p => (p.1, p.2.getD i 0)))

/-- One lap as the parse-time assembly produces it, before the
`point_data` dicts are filtered into DataPoint fields: the lap number,
the lap time in milliseconds, and the zipped per-sample dicts. -/
structure ParseLap where
  lap_number : Nat
  lap_time_ms : Int
  points : List (List (String × ℚ))
deriving Repr, DecidableEq

/-- The sidecar-driven lap of parsers.py lines 470-553: the lap is
skipped (`none`) when its channel dict is empty (`min_samples_in_lap`
stayed infinite); otherwise the lap's number comes from the sidecar
record, its lap time is `int(lap_time_s * 1000)` from the sidecar
record, and its points are the index-by-index zip. -/
def mkLdxLap (ldx : LdxLapInfo) (d : List (String × List ℚ)) :
    Option ParseLap :=
  if (minSamples d).isSome then
    some ⟨ldx.lap_num, pyInt (ldx.time * 1000), parseLapPoints d⟩
  else none

/-- The single-lap fallback of parsers.py lines 554-631: the entire
sample stream becomes lap number 1 with lap time 0 (`none` when no
channel decoded any data, which aborts the parse). -/
def mkSingleLap (d : List (String × List ℚ)) : Option ParseLap :=
  if (minSamples d).isSome then some ⟨1, 0, parseLapPoints d⟩ else none

/-- The lap-processing stage of `MotecParser.parse` (parsers.py lines
442-649) after the channel walk: with sidecar laps available each
accepted boundary is decoded over `[start, end]` (inclusive end, count
`end - start + 1`) and empty laps are skipped, failing when no lap
survives; with no sidecar laps (`parse_ldx` returned `none`) the whole
stream is processed as one implicit lap, failing when it has no data. -/
def motecParse (channels : List (String × LdChan))
    (ldxContent : Option (List (Nat × Nat × ℚ))) : Option (List ParseLap) :=
  if channels.isEmpty then none
  else
    if (parse_ldx ldxContent).isSome then
      let laps := ((parse_ldx ldxContent).getD []).filterMap
        (fun ldx =>
          mkLdxLap ldx
            (lapDictFor channels ldx.start_off (ldx.end_off - ldx.start_off + 1)))
      if laps.isEmpty then none else some laps
    else
      (mkSingleLap (fullLapDict channels)).map (fun lap => [lap])

/-! ## Helper lemmas -/

theorem lookup_insertReplace_of_ne (d : List (String × List ℚ)) (k k' : String)
    (v : List ℚ) (h : k' ≠ k) :
    (insertReplace d k v).lookup k' = d.lookup k' := by
  have hb : (k' == k) = false := beq_eq_false_iff_ne.mpr h
  induction d with
  | nil => simp [insertReplace, List.lookup, hb]
  | cons p rest ih =>
      by_cases hk : p.1 = k
      · simp [insertReplace, hk, List.lookup, hb]
      · by_cases hk' : k' = p.1
        · simp [insertReplace, hk, List.lookup, hk']
        · simp [insertReplace, hk, List.lookup, hk', ih]

theorem lookup_mappedChannels_none (samples : List (String × List ℚ)) (k : String)
    (h : ∀ p ∈ samples, findChannelMapping p.1 ≠ some k) :
    (mappedChannels samples).lookup k = none := by
  have gen : ∀ (l : List (String × List ℚ)) (d : List (String × List ℚ)),
      (∀ p ∈ l, findChannelMapping p.1 ≠ some k) → d.lookup k = none →
      (l.foldl (fun d p =>
        match findChannelMapping p.1 with
        | some std => insertReplace d std p.2
        | none => d) d).lookup k = none := by
    intro l
    induction l with
    | nil => intro d _ hd; simpa using hd
    | cons p rest ih =>
        intro d hl hd
        simp only [List.foldl_cons]
        apply ih _ (fun q hq => hl q (List.mem_cons_of_mem p hq))
        cases hfm : findChannelMapping p.1 with
        | none => simpa using hd
        | some std =>
            have hne : k ≠ std := by
              intro he
              exact hl p (List.mem_cons_self p rest) (he ▸ hfm)
            simpa using (lookup_insertReplace_of_ne d std k p.2 hne).trans hd
  exact gen samples [] h rfl

theorem minSamples_le (d : List (String × List ℚ)) (n : Nat)
    (h : minSamples d = some n) : ∀ p ∈ d, n ≤ p.2.length := by
  have gen : ∀ (l : List (String × List ℚ)) (m0 : Option Nat) (n : Nat),
      l.foldl (fun m p =>
        if m.isSome then some (min (m.getD 0) p.2.length) else some p.2.length)
        m0 = some n →
      (∀ p ∈ l, n ≤ p.2.length) ∧ (∀ v, m0 = some v → n ≤ v) := by
    intro l
    induction l with
    | nil =>
        intro m0 n h0
        simp only [List.foldl_nil] at h0
        refine ⟨by simp, fun v hv => ?_⟩
        rw [h0] at hv
        exact le_of_eq (Option.some.inj hv)
    | cons p rest ih =>
        intro m0 n h0
        simp only [List.foldl_cons] at h0
        obtain ⟨hrest, hm1⟩ := ih _ n h0
        have hp : n ≤ p.2.length := by
          cases m0 with
          | none => exact hm1 p.2.length (by simp)
          | some v =>
              exact (hm1 (min v p.2.length) (by simp)).trans
                (min_le_right v p.2.length)
        refine ⟨fun q hq => ?_, fun v hv => ?_⟩
        · rcases List.mem_cons.mp hq with rfl | hq'
          · exact hp
          · exact hrest q hq'
        · subst hv
          exact (hm1 (min v p.2.length) (by simp)).trans
            (min_le_left v p.2.length)
  exact (gen d none n h).1

/-! ## Claim theorems -/

/-- Claim C10: `normalize` applied to a value that is already a
standardized `TelemetrySession` returns that same session unchanged,
both for source format "motec" and for source format "csv". -/
theorem normalize_identity_on_session (s : TelemetrySession) :
    TelemetryNormalizer.normalize (RawData.session s) "motec" = Except.ok s ∧
      TelemetryNormalizer.normalize (RawData.session s) "csv" = Except.ok s := by
  constructor <;> rfl

/-- Claim C1: the sample decoder converts every raw sample `r` of a
channel whose header records scale `s`, decimal exponent `d`, shift `sh`
and multiplier `m` to `(r / s * 10 ^ (-d) + sh) * m`, with `s` and `m`
replaced by 1 whenever the recorded value is 0; in particular a
descriptor with scale 10, decimal 2, shift 1, multiplier 2 and raw
samples [100, 200] decodes to
[(100/10 * 10^-2 + 1) * 2, (200/10 * 10^-2 + 1) * 2]. -/
theorem sample_decode_conversion :
    (∀ (sh m s d : Int) (data : List ℚ) (start cnt : Nat),
        cnt ≠ 0 → start + cnt ≤ data.length →
        get_data (ldChanOfHeader sh m s d true data) start cnt =
          some (((data.drop start).take cnt).map (fun r =>
            (r / (((if s = 0 then 1 else s) : ℤ) : ℚ) * (10 : ℚ) ^ (-d) +
              (sh : ℚ)) * (((if m = 0 then 1 else m) : ℤ) : ℚ)))) ∧
      get_data (ldChanOfHeader 1 2 10 2 true [100, 200]) 0 2 =
        some [((100 : ℚ) / 10 * (10 : ℚ) ^ (-(2 : ℤ)) + 1) * 2,
              ((200 : ℚ) / 10 * (10 : ℚ) ^ (-(2 : ℤ)) + 1) * 2] := by
  constructor
  · intro sh m s d data start cnt hcnt hle
    have hlen : data.length ≠ 0 := by omega
    have hnlt : ¬ data.length < start + cnt := by omega
    have hsub : start + cnt - start = cnt := by omega
    simp only [get_data, ldChanOfHeader, sliceL]
    rw [if_neg (by simp [hlen]), if_neg (not_or.mpr ⟨hcnt, hnlt⟩), hsub]
    congr 1
  · with_unfolding_all decide

/-- Claim C3: the sidecar record loop accepts a record
`(start, end, time)` exactly when `start < end` and `time > 0`, a
rejected record does not advance the lap counter, and accepted records
are numbered consecutively from the starting counter in acceptance
order; in particular of (10,5,1.0), (5,10,-1.0), (5,10,1.5) only the
third is kept, as lap number 1. -/
theorem ldx_record_filtering :
    (∀ (recs : List (Nat × Nat × ℚ)) (n : Nat),
        ldxRecords recs n =
          ((recs.filter (fun r => decide (r.1 < r.2.1 ∧ 0 < r.2.2))).enumFrom n).map
            (fun p => ⟨p.1, p.2.1, p.2.2.1, p.2.2.2⟩)) ∧
      ldxRecords [(10, 5, 1), (5, 10, -1), (5, 10, 3 / 2)] 1 =
        [⟨1, 5, 10, 3 / 2⟩] := by
  constructor
  · intro recs
    induction recs with
    | nil => intro n; simp [ldxRecords]
    | cons r rest ih =>
        intro n
        obtain ⟨s, e, t⟩ := r
        by_cases h : s < e ∧ 0 < t
        · simp [ldxRecords, h, List.enumFrom, ih]
        · simp [ldxRecords, h, ih]
  · with_unfolding_all decide

/-- Claim C7 counterexample: in the sidecar-driven assembly, a lap
whose decoded channels are a = [1,2,3] and b = [10,20] produces only
two zipped per-sample dicts — the assembly truncates every channel to
the shortest length instead of padding the shorter channel, and the
third sample of the longer channel a is discarded. -/
theorem lap_assembly_truncates :
    parseLapPoints [("a", [1, 2, 3]), ("b", [10, 20])] =
      [[("a", 1), ("b", 10)], [("a", 2), ("b", 20)]] ∧
      (parseLapPoints [("a", [1, 2, 3]), ("b", [10, 20])]).length = 2 := by
  constructor
  · with_unfolding_all decide
  · with_unfolding_all decide

/-- Claim C7 amended: in sidecar-driven assembly the DataPoints are
built by zipping the decoded per-channel arrays index by index over the
first `min` samples, where `min` is the minimum decoded length — any
channel longer than the shortest is truncated, not padded — and the
assembled lap's time equals the sidecar record's lap time
(`int(lap_time_s * 1000)`), not a value recomputed from timestamps. -/
theorem lap_assembly_amended :
    (∀ (d : List (String × List ℚ)) (n : Nat),
        minSamples d = some n → (parseLapPoints d).length = n) ∧
      (∀ (d : List (String × List ℚ)) (n i : Nat),
        minSamples d = some n → i < n →
        (parseLapPoints d).getD i [] = d.map (fun p => (p.1, p.2.getD i 0))) ∧
      (∀ (ldx : LdxLapInfo) (d : List (String × List ℚ)) (lap : ParseLap),
        mkLdxLap ldx d = some lap →
        lap.lap_time_ms = pyInt (ldx.time * 1000) ∧ lap.points = parseLapPoints d) ∧
      mkLdxLap ⟨3, 10, 12, (7 : ℚ) / 2⟩ [("a", [1, 2]), ("b", [5, 6])] =
        some ⟨3, 3500, [[("a", 1), ("b", 5)], [("a", 2), ("b", 6)]]⟩ := by
  refine ⟨?_, ?_, ?_, ?_⟩
  · intro d n h
    simp [parseLapPoints, h]
  · intro d n i h hi
    have hall : d.filter (fun p => decide (n ≤ p.2.length)) = d :=
      List.filter_eq_self.mpr
        (fun p hp => by simpa using minSamples_le d n h p hp)
    simp [parseLapPoints, h, hall, List.getD_eq_getElem?_getD,
      List.getElem?_map, List.getElem?_range, hi]
  · intro ldx d lap h
    unfold mkLdxLap at h
    split_ifs at h
    obtain rfl := Option.some.inj h
    exact ⟨rfl, rfl⟩
  · unfold mkLdxLap
    norm_num [minSamples, parseLapPoints, pyInt, List.range_succ]

/-- Claim C2: the channel directory walker terminates: it stops when the
next pointer is 0, stops when the pointer's offset was already visited,
and once the visited-offset cap of 1000 is reached it collects at most
one more channel before stopping; on the two-record chain where record
B's next pointer points back to record A's offset, the walker stops via
the visited set and returns exactly the two channels A and B. -/
theorem channel_walker_termination :
    (∀ (mem : ChanMem) (v : List Nat) (c : List String),
        walkFrom mem 0 v c = (c, v)) ∧
      (∀ (mem : ChanMem) (p : Nat) (v : List Nat) (c : List String),
        p ∈ v → walkFrom mem p v c = (c, v)) ∧
      (∀ (mem : ChanMem) (p : Nat) (v : List Nat) (c : List String),
        1000 ≤ v.length → (walkFrom mem p v c).1.length ≤ c.length + 1) ∧
      walkChannels cycleMem 100 = some (["A", "B"], [200, 100]) := by
  refine ⟨?_, ?_, ?_, ?_⟩
  · intro mem v c
    unfold walkFrom
    simp
  · intro mem p v c h
    unfold walkFrom
    simp [h]
  · intro mem p v c h
    unfold walkFrom
    by_cases h0 : p = 0 ∨ p ∈ v
    · simp [h0]
    · rw [if_neg h0]
      cases hm : mem p with
      | none => simp
      | some r =>
          by_cases hv : r.valid
          · have hcap : 1000 < v.length + 1 := by omega
            simp [hv, hcap]
          · simp [hv]
  · have h1 : walkFrom cycleMem 100 [200, 100] ["A", "B"] =
        (["A", "B"], [200, 100]) := by
      unfold walkFrom
      simp
    have h2 : walkFrom cycleMem 200 [100] ["A"] = (["A", "B"], [200, 100]) := by
      unfold walkFrom
      simp [cycleMem, h1]
    unfold walkChannels
    simp [cycleMem, h2]

/-- Claim C5: synthetic lap segmentation places a boundary start at
sample 0, starts a new boundary exactly at each index whose lap-counter
value strictly increases over the previous sample, and closes the final
boundary at the last sample (exclusive end = the sample count). The
counter [1,1,1,2,2,3] yields starts [0,3,5] and exclusive ends [3,5,6],
i.e. the inclusive boundaries [0,2], [3,4], [5,5]; a session with this
counter splits into three laps of 3, 2 and 1 samples. -/
theorem synthetic_lap_boundaries :
    (∀ (xs : List ℚ) (i : Nat),
        i ∈ lapChanges xs ↔
          1 ≤ i ∧ i < xs.length ∧ xs.getD (i - 1) 0 < xs.getD i 0) ∧
      (∀ xs : List ℚ, (startIndices xs).head? = some 0) ∧
      (∀ (xs : List ℚ) (n : Nat), (endIndices xs n).getLast? = some n) ∧
      startIndices [1, 1, 1, 2, 2, 3] = [0, 3, 5] ∧
      endIndices [1, 1, 1, 2, 2, 3] 6 = [3, 5, 6] ∧
      (startIndices [1, 1, 1, 2, 2, 3]).zip
          ((endIndices [1, 1, 1, 2, 2, 3] 6).map (fun e => e - 1)) =
        [(0, 2), (3, 4), (5, 5)] := by
  refine ⟨?_, ?_, ?_, ?_, ?_, ?_⟩
  · intro xs i
    simp only [lapChanges, List.mem_map, List.mem_filter, List.mem_range,
      decide_eq_true_eq]
    constructor
    · rintro ⟨j, ⟨hj, hlt⟩, rfl⟩
      exact ⟨by omega, by omega, by simpa using hlt⟩
    · rintro ⟨h1, h2, h3⟩
      refine ⟨i - 1, ⟨by omega, ?_⟩, by omega⟩
      have hi : i - 1 + 1 = i := by omega
      rw [hi]
      exact h3
  · intro xs
    rfl
  · intro xs n
    simp [endIndices]
  · with_unfolding_all decide
  · with_unfolding_all decide
  · with_unfolding_all decide

theorem ldxRecords_nil_of_all_invalid :
    ∀ (recs : List (Nat × Nat × ℚ)) (n : Nat),
      (∀ r ∈ recs, ¬(r.1 < r.2.1 ∧ 0 < r.2.2)) → ldxRecords recs n = [] := by
  intro recs
  induction recs with
  | nil => intro n _; rfl
  | cons r rest ih =>
      intro n h
      obtain ⟨s, e, t⟩ := r
      have hr := h (s, e, t) (List.mem_cons_self _ _)
      simp only [ldxRecords, if_neg hr]
      exact ih n (fun q hq => h q (List.mem_cons_of_mem _ hq))

/-- Claim C9: a missing or unreadable sidecar (content `none`) and a
sidecar whose records are all rejected both make the lap-index reader
return `none` (no boundaries, not an error), and the parser then still
produces a session by processing the entire sample stream as one
implicit lap (number 1, lap time 0); concretely, a channel with decoded
samples [2, 4] and no sidecar parses to that single lap over both
samples. -/
theorem sidecar_fallback_single_lap :
    (parse_ldx none = none) ∧
      (∀ recs : List (Nat × Nat × ℚ),
        (∀ r ∈ recs, ¬(r.1 < r.2.1 ∧ 0 < r.2.2)) →
        parse_ldx (some recs) = none) ∧
      (∀ (channels : List (String × LdChan))
          (content : Option (List (Nat × Nat × ℚ))) (lap : ParseLap),
        parse_ldx content = none →
        mkSingleLap (fullLapDict channels) = some lap →
        channels ≠ [] →
        motecParse channels content = some [lap]) ∧
      motecParse [("EX", ldChanOfHeader 0 1 1 0 true [2, 4])] none =
        some [⟨1, 0, [[("EX", 2)], [("EX", 4)]]⟩] := by
  refine ⟨rfl, ?_, ?_, ?_⟩
  · intro recs h
    simp [parse_ldx, ldxRecords_nil_of_all_invalid recs 1 h]
  · intro channels content lap hldx hsingle hne
    unfold motecParse
    rw [if_neg (by simpa [List.isEmpty_iff] using hne)]
    rw [hldx]
    simp [hsingle]
  · with_unfolding_all decide

/-- Claim C4: when no sample channel maps to the standard distance
channel "distance_m", MoTeC normalization fails with the
missing-required-channels error and returns no session, regardless of
which other channels are present and valid; the required standard
channels are the lap-boundary counter "lap_number", the time channel
"timestamp_s" and the distance channel "distance_m". -/
theorem missing_distance_channel_fails (header : List (String × String))
    (samples : List (String × List ℚ))
    (hne : samples ≠ [])
    (hnod : ∀ p ∈ samples, findChannelMapping p.1 ≠ some "distance_m") :
    requiredChannels = ["lap_number", "timestamp_s", "distance_m"] ∧
      ∃ miss, TelemetryNormalizer.normalize
          (RawData.motecDict header samples) "motec" =
        Except.error (NormError.missingChannels miss) ∧ "distance_m" ∈ miss := by
  have hno : (mappedChannels samples).lookup "distance_m" = none :=
    lookup_mappedChannels_none samples _ hnod
  have hmem : "distance_m" ∈ requiredChannels.filter
      (fun ch => ((mappedChannels samples).lookup ch).isNone) := by
    apply List.mem_filter.mpr
    exact ⟨by simp [requiredChannels], by simp [hno]⟩
  have hse : samples.isEmpty = false := by
    cases samples with
    | nil => exact absurd rfl hne
    | cons a l => rfl
  have hmiss : (requiredChannels.filter
      (fun ch => ((mappedChannels samples).lookup ch).isNone)).isEmpty = false := by
    cases hfe : requiredChannels.filter
        (fun ch => ((mappedChannels samples).lookup ch).isNone) with
    | nil => rw [hfe] at hmem; cases hmem
    | cons a l => rfl
  refine ⟨rfl, _, ?_, hmem⟩
  have e1 : TelemetryNormalizer.normalize (RawData.motecDict header samples)
      "motec" = normalizeMotecDict header samples := rfl
  rw [e1]
  simp only [normalizeMotecDict, hse, hmiss, Bool.false_eq_true, if_false,
    eq_self_iff_true, if_true]

/-- Claim C4 witness: the concrete sample set with only a "Speed"
channel (which maps to "speed_kmh", not "distance_m") is non-empty,
maps nothing to "distance_m", and normalization fails with the
missing-channels error naming "distance_m". -/
theorem missing_distance_channel_fails_witness :
    (([("Speed", [1, 2])] : List (String × List ℚ)) ≠ []) ∧
      (∀ p ∈ ([("Speed", [1, 2])] : List (String × List ℚ)),
        findChannelMapping p.1 ≠ some "distance_m") ∧
      (requiredChannels = ["lap_number", "timestamp_s", "distance_m"] ∧
        ∃ miss, TelemetryNormalizer.normalize
            (RawData.motecDict [] [("Speed", [1, 2])]) "motec" =
          Except.error (NormError.missingChannels miss) ∧ "distance_m" ∈ miss) :=
  ⟨by simp, by with_unfolding_all decide,
    missing_distance_channel_fails [] [("Speed", [1, 2])]
      (by simp) (by with_unfolding_all decide)⟩

